import Mathlib

/-!
Shallow embedding of the food-delivery backend's order pipeline
(src/routes/orders.routes.ts, the courier-assignment routes, and the
menu-item update route), together with theorems checking the
specification's claims about them.

Conventions of the embedding:
* Each SQL table is a list of row structures; SERIAL columns are modelled
  with explicit `next…Id` counters on the database state.
* `SELECT … LIMIT 1` / `rows[0]` is `List.find?` (first matching row);
  `UPDATE … WHERE` maps the update over every matching row.
* Timestamps (`CURRENT_TIMESTAMP`) are a `now : Nat` parameter.
* Monetary amounts are exact integers (the DECIMAL column in minor units).
* JavaScript truthiness on ids (`!restaurant_id`) is modelled by `truthy`:
  a missing field is `none`, and `some 0` is falsy exactly as in JS.
* The create-order handler runs on one client between BEGIN and
  COMMIT/ROLLBACK, so its committed effect is applied atomically:
  an error inside the transaction returns the original state (ROLLBACK),
  success returns the state with all rows added (COMMIT).  The handler's
  intermediate INSERT-then-UPDATE of the order row commits as the single
  final row recorded here.
* The assignment-status handler issues its two UPDATE statements through
  the auto-committing pool helper (`query` in db.ts), not through one
  client with BEGIN/COMMIT, so it is modelled as two separately committed
  steps with a well-defined intermediate state.
-/

namespace FoodDelivery

/-- A user row joined with its role names (users ⋈ user_roles ⋈ roles). -/
structure UserRow where
  id : Nat
  roles : List String
  deriving Repr, DecidableEq

/-- A row of `user_addresses` (only the columns the handlers read). -/
structure AddressRow where
  id : Nat
  user_id : Nat
  deriving Repr, DecidableEq

/-- A row of `restaurants` (only the columns the handlers read). -/
structure RestaurantRow where
  id : Nat
  owner_id : Nat
  deriving Repr, DecidableEq

/-- A row of `menu_items`. -/
structure MenuItemRow where
  id : Nat
  restaurant_id : Nat
  name : String
  description : String
  price : Int
  is_available : Bool
  deriving Repr, DecidableEq

/-- A row of `orders`.  `total_amount` is NULL until the transaction sets it. -/
structure OrderRow where
  id : Nat
  customer_id : Nat
  restaurant_id : Nat
  address_id : Nat
  status : String
  total_amount : Option Int
  created_at : Nat
  updated_at : Nat
  deriving Repr, DecidableEq

/-- A row of `order_items`: the price snapshot for one line item. -/
structure OrderItemRow where
  id : Nat
  order_id : Nat
  menu_item_id : Nat
  quantity : Int
  unit_price : Int
  deriving Repr, DecidableEq

/-- A row of `courier_assignments` (order_id is UNIQUE in the schema). -/
structure AssignmentRow where
  id : Nat
  order_id : Nat
  courier_id : Nat
  status : String
  assigned_at : Nat
  picked_at : Option Nat
  delivered_at : Option Nat
  deriving Repr, DecidableEq

/-- A row of `payments` (order_id is UNIQUE in the schema). -/
structure PaymentRow where
  id : Nat
  order_id : Nat
  amount : Int
  payment_method : String
  status : String
  deriving Repr, DecidableEq

/-- The database state seen by the handlers. -/
structure DB where
  users : List UserRow
  user_addresses : List AddressRow
  restaurants : List RestaurantRow
  menu_items : List MenuItemRow
  orders : List OrderRow
  order_items : List OrderItemRow
  courier_assignments : List AssignmentRow
  payments : List PaymentRow
  nextOrderId : Nat
  nextOrderItemId : Nat
  nextAssignmentId : Nat
  nextPaymentId : Nat
  deriving Repr, DecidableEq

/-- PAYMENT_METHODS from orders.routes.ts. -/
def PAYMENT_METHODS : List String := ["CREDIT_CARD", "CASH", "WALLET"]

/-- isPaymentMethod from orders.routes.ts. -/
def isPaymentMethod (s : String) : Bool := PAYMENT_METHODS.contains s

/-- ORDER_STATUSES from orders.routes.ts. -/
def ORDER_STATUSES : List String :=
  ["CREATED", "PREPARING", "READY", "PICKED_UP", "DELIVERED", "CANCELLED"]

/-- isOrderStatus from orders.routes.ts. -/
def isOrderStatus (s : String) : Bool := ORDER_STATUSES.contains s

/-- COURIER_ASSIGNMENT_STATUSES from the courier routes file. -/
def COURIER_ASSIGNMENT_STATUSES : List String := ["ASSIGNED", "PICKED_UP", "DELIVERED"]

/-- isCourierAssignmentStatus from the courier routes file. -/
def isCourierAssignmentStatus (s : String) : Bool := COURIER_ASSIGNMENT_STATUSES.contains s

/-- JavaScript truthiness of a numeric id field: absent and 0 are falsy. -/
def truthy : Option Nat → Bool
  | none => false
  | some n => n != 0

/-- One entry of the request's `items` array. -/
structure OrderItemReq where
  menu_item_id : Nat
  quantity : Int
  deriving Repr, DecidableEq

/-- The JSON body of POST /orders/add. -/
structure OrderRequest where
  restaurant_id : Option Nat
  address_id : Option Nat
  items : Option (List OrderItemReq)
  payment_method : String
  deriving Repr, DecidableEq

/-- Responses of POST /orders/add.  `badRequest` is returned before any
transaction is opened; `rolledBack` is a 400 returned after BEGIN and
ROLLBACK; `created` is the 201 body returned after COMMIT. -/
inductive OrderResponse where
  | badRequest (error : String)
  | rolledBack (error : String)
  | created (orderId : Nat) (totalAmount : Int) (courierId : Nat)
      (status : String) (payment_status : String)
  deriving Repr, DecidableEq

/-- HTTP status code carried by each create-order response. -/
def OrderResponse.statusCode : OrderResponse → Nat
  | .badRequest _ => 400
  | .rolledBack _ => 400
  | .created _ _ _ _ _ => 201

/-- The handler's up-front validation:
`!restaurant_id || !address_id || !items || !items.length`. -/
def missingOrderDetails (req : OrderRequest) : Bool :=
  !truthy req.restaurant_id || !truthy req.address_id ||
    req.items.isNone || (req.items.getD []).isEmpty

/-- The address-ownership check:
`SELECT id FROM user_addresses WHERE id = $1 AND user_id = $2` is non-empty. -/
def addressOk (db : DB) (customerId addressId : Nat) : Bool :=
  !(db.user_addresses.find? (fun a => a.id == addressId && a.user_id == customerId)).isNone

/-- The item loop of the transaction.  For each item in input order:
reject a falsy menu_item_id or non-positive quantity, look the price up
scoped to the restaurant (`WHERE id = $1 AND restaurant_id = $2`), add
`unit_price * quantity` to the running total, and record the
`order_items` row with the snapshotted price.  `nextId` threads the
SERIAL id of order_items; `total` is the running total. -/
def processItems (db : DB) (restaurantId orderId : Nat) :
    List OrderItemReq → Nat → Int → Except String (List OrderItemRow × Nat × Int)
  | [], nextId, total => .ok ([], nextId, total)
  | it :: rest, nextId, total =>
    if it.menu_item_id == 0 || it.quantity ≤ 0 then
      .error "Each item must include menu_item_id and quantity > 0"
    else
      match db.menu_items.find?
          (fun mi => mi.id == it.menu_item_id && mi.restaurant_id == restaurantId) with
      | none => .error ("Menu item " ++ toString it.menu_item_id ++
          " not found or not in this restaurant")
      | some mi =>
        match processItems db restaurantId orderId rest (nextId + 1)
            (total + mi.price * it.quantity) with
        | .error e => .error e
        | .ok (rows, n, t) =>
          .ok ({ id := nextId, order_id := orderId, menu_item_id := it.menu_item_id,
                 quantity := it.quantity, unit_price := mi.price } :: rows, n, t)

/-- Whether a user is an available courier: holds the COURIER role and the
NOT EXISTS subquery finds no assignment of theirs in ASSIGNED or PICKED_UP. -/
def courierIsAvailable (db : DB) (u : UserRow) : Bool :=
  u.roles.contains "COURIER" &&
    !(db.courier_assignments.any (fun ca =>
      ca.courier_id == u.id && (ca.status == "ASSIGNED" || ca.status == "PICKED_UP")))

/-- Minimum of a list of ids (`ORDER BY u.id ASC LIMIT 1`). -/
def minId : List Nat → Option Nat
  | [] => none
  | x :: xs =>
    match minId xs with
    | none => some x
    | some m => some (min x m)

/-- The courier-availability query: the lowest user id among available
couriers, if any. -/
def selectCourier (db : DB) : Option Nat :=
  minId ((db.users.filter (courierIsAvailable db)).map (fun u => u.id))

/-- The payment INSERT with `ON CONFLICT (order_id) DO UPDATE`: if a row
for the order exists it is overwritten, otherwise a new row is inserted. -/
def upsertPayment (payments : List PaymentRow) (newId orderId : Nat)
    (amount : Int) (method : String) : List PaymentRow :=
  if payments.any (fun p => p.order_id == orderId) then
    payments.map (fun p =>
      if p.order_id == orderId then
        { p with amount := amount, payment_method := method, status := "COMPLETED" }
      else p)
  else
    payments ++ [{ id := newId, order_id := orderId, amount := amount,
                   payment_method := method, status := "COMPLETED" }]

/-- The committed effect of a successful create-order transaction: the
order row (inserted CREATED then updated to DELIVERED with the total — the
single row visible at COMMIT), the line-item rows, the courier assignment
inserted directly in DELIVERED status with `delivered_at` stamped, and the
COMPLETED payment. -/
def commitOrder (db : DB) (cust rid aid : Nat) (pm : String) (now : Nat)
    (rows : List OrderItemRow) (n1 : Nat) (total : Int) (cid : Nat) : DB :=
  { db with
    orders := db.orders ++
      [{ id := db.nextOrderId, customer_id := cust, restaurant_id := rid,
         address_id := aid, status := "DELIVERED", total_amount := some total,
         created_at := now, updated_at := now }],
    order_items := db.order_items ++ rows,
    courier_assignments := db.courier_assignments ++
      [{ id := db.nextAssignmentId, order_id := db.nextOrderId, courier_id := cid,
         status := "DELIVERED", assigned_at := now, picked_at := none,
         delivered_at := some now }],
    payments := upsertPayment db.payments db.nextPaymentId db.nextOrderId total pm,
    nextOrderId := db.nextOrderId + 1,
    nextOrderItemId := n1,
    nextAssignmentId := db.nextAssignmentId + 1,
    nextPaymentId := db.nextPaymentId + 1 }

/-- The transaction body of POST /orders/add (between BEGIN and
COMMIT/ROLLBACK).  Every error path executes ROLLBACK before responding,
so it returns the unchanged state. -/
def placeOrderTx (db : DB) (cust rid aid : Nat) (items : List OrderItemReq)
    (pm : String) (now : Nat) : OrderResponse × DB :=
  if !addressOk db cust aid then
    (.rolledBack "Invalid address_id (not found or not yours)", db)
  else
    match processItems db rid db.nextOrderId items db.nextOrderItemId 0 with
    | .error e => (.rolledBack e, db)
    | .ok (rows, n1, total) =>
      match selectCourier db with
      | none => (.rolledBack "No courier available", db)
      | some cid =>
        (.created db.nextOrderId total cid "DELIVERED" "COMPLETED",
          commitOrder db cust rid aid pm now rows n1 total cid)

/-- POST /orders/add: the two validation rejections happen before any
transaction is opened; otherwise the transaction body runs. -/
def placeOrder (db : DB) (cust : Nat) (req : OrderRequest) (now : Nat) :
    OrderResponse × DB :=
  if missingOrderDetails req then (.badRequest "Missing order details", db)
  else if !isPaymentMethod req.payment_method then
    (.badRequest "Invalid payment_method", db)
  else
    placeOrderTx db cust (req.restaurant_id.getD 0) (req.address_id.getD 0)
      (req.items.getD []) req.payment_method now

/-- Sum of `unit_price * quantity` over a list of line-item rows. -/
def sumLineItems (rows : List OrderItemRow) : Int :=
  (rows.map (fun r => r.unit_price * r.quantity)).sum

/-- Responses of PUT /orders/:id/cancel. -/
inductive CancelResponse where
  | notFound (error : String)
  | badRequest (error : String)
  | ok (order : OrderRow)
  deriving Repr, DecidableEq

/-- HTTP status code of each cancel response. -/
def CancelResponse.statusCode : CancelResponse → Nat
  | .notFound _ => 404
  | .badRequest _ => 400
  | .ok _ => 200

/-- PUT /orders/:id/cancel: look the order up by id and customer; 404 if
absent, 400 if its status is DELIVERED; otherwise set status CANCELLED and
refresh updated_at on every matching row and return the first updated row
(`RETURNING *`, rows[0] — the found row with the update applied). -/
def cancelOrder (db : DB) (cust orderId : Nat) (now : Nat) : CancelResponse × DB :=
  match db.orders.find? (fun o => o.id == orderId && o.customer_id == cust) with
  | none => (.notFound "Order not found", db)
  | some o =>
    if o.status == "DELIVERED" then
      (.badRequest "Cannot cancel delivered order", db)
    else
      (.ok { o with status := "CANCELLED", updated_at := now },
        { db with orders := db.orders.map (fun r =>
            if r.id == orderId && r.customer_id == cust then
              { r with status := "CANCELLED", updated_at := now }
            else r) })

/-- Responses of the courier-assignment routes. -/
inductive AssignmentResponse where
  | badRequest (error : String)
  | notFound (error : String)
  | ok (row : AssignmentRow)
  | created (row : AssignmentRow)
  deriving Repr, DecidableEq

/-- WHERE clause of the assignment UPDATE: admins update by id alone,
couriers only their own rows (`AND courier_id = $3`). -/
def assignmentMatches (isAdmin : Bool) (userId assignmentId : Nat)
    (ca : AssignmentRow) : Bool :=
  ca.id == assignmentId && (isAdmin || ca.courier_id == userId)

/-- The SET clause built by the handler: `status = $1`, plus
`picked_at = CURRENT_TIMESTAMP` when the new status is PICKED_UP and
`delivered_at = CURRENT_TIMESTAMP` when it is DELIVERED.  No condition on
the row's current status is attached. -/
def applyAssignmentUpdate (ca : AssignmentRow) (status : String) (now : Nat) :
    AssignmentRow :=
  if status == "PICKED_UP" then { ca with status := status, picked_at := some now }
  else if status == "DELIVERED" then { ca with status := status, delivered_at := some now }
  else { ca with status := status }

/-- First statement of PUT /courier/assignments/:id/update-status: the
`UPDATE courier_assignments` issued through the pool helper, which
auto-commits it as its own transaction. -/
def updateAssignmentStep1 (db : DB) (isAdmin : Bool) (userId assignmentId : Nat)
    (status : String) (now : Nat) : DB :=
  { db with courier_assignments := db.courier_assignments.map (fun ca =>
      if assignmentMatches isAdmin userId assignmentId ca then
        applyAssignmentUpdate ca status now
      else ca) }

/-- Second statement of the same handler: the follow-up
`UPDATE orders SET status = …` mirroring DELIVERED or PICKED_UP onto the
parent order, again auto-committed on its own. -/
def mirrorOrderStatus (db : DB) (status : String) (orderId : Nat) : DB :=
  if status == "DELIVERED" then
    { db with orders := db.orders.map (fun o =>
        if o.id == orderId then { o with status := "DELIVERED" } else o) }
  else if status == "PICKED_UP" then
    { db with orders := db.orders.map (fun o =>
        if o.id == orderId then { o with status := "PICKED_UP" } else o) }
  else db

/-- PUT /courier/assignments/:id/update-status.  After validating the
status string, the assignment UPDATE runs (step 1); if it touched no row
the handler answers 404; otherwise the order mirror UPDATE runs (step 2)
keyed on the returned row's order_id, and the updated assignment row is
returned.  The two statements are separate pool queries, not one
transaction. -/
def updateAssignmentStatus (db : DB) (isAdmin : Bool) (userId assignmentId : Nat)
    (status : String) (now : Nat) : AssignmentResponse × DB :=
  if !isCourierAssignmentStatus status then (.badRequest "Invalid status", db)
  else
    match db.courier_assignments.find? (assignmentMatches isAdmin userId assignmentId) with
    | none => (.notFound "Assignment not found or not yours", db)
    | some ca =>
      let row := applyAssignmentUpdate ca status now
      (.ok row,
        mirrorOrderStatus (updateAssignmentStep1 db isAdmin userId assignmentId status now)
          status row.order_id)

/-- POST /courier/assign-courier: after checking both body ids and that the
order exists, `INSERT INTO courier_assignments … ON CONFLICT (order_id) DO
UPDATE SET courier_id = $2, status = 'ASSIGNED'` — an existing assignment
for the order is reset to ASSIGNED regardless of its current status. -/
def assignCourier (db : DB) (order_id courier_id : Option Nat) (now : Nat) :
    AssignmentResponse × DB :=
  if !truthy order_id || !truthy courier_id then
    (.badRequest "order_id and courier_id are required", db)
  else
    let oid := order_id.getD 0
    let cid := courier_id.getD 0
    if (db.orders.find? (fun o => o.id == oid)).isNone then
      (.notFound "Order not found", db)
    else
      match db.courier_assignments.find? (fun ca => ca.order_id == oid) with
      | some ca =>
        (.created { ca with courier_id := cid, status := "ASSIGNED" },
          { db with courier_assignments := db.courier_assignments.map (fun r =>
              if r.order_id == oid then { r with courier_id := cid, status := "ASSIGNED" }
              else r) })
      | none =>
        let row : AssignmentRow :=
          { id := db.nextAssignmentId, order_id := oid, courier_id := cid,
            status := "ASSIGNED", assigned_at := now, picked_at := none,
            delivered_at := none }
        (.created row,
          { db with courier_assignments := db.courier_assignments ++ [row],
                    nextAssignmentId := db.nextAssignmentId + 1 })

/-- Responses of PUT /menu/menu-items/:menuItemId/update. -/
inductive MenuUpdateResponse where
  | notFound (error : String)
  | forbidden (error : String)
  | ok (row : MenuItemRow)
  deriving Repr, DecidableEq

/-- COALESCE semantics of the menu-item UPDATE: absent body fields keep the
stored values. -/
def coalesceMenuItem (m : MenuItemRow) (name_v description_v : Option String)
    (price_v : Option Int) (is_available_v : Option Bool) : MenuItemRow :=
  { m with
    name := name_v.getD m.name,
    description := description_v.getD m.description,
    price := price_v.getD m.price,
    is_available := is_available_v.getD m.is_available }

/-- PUT /menu/menu-items/:menuItemId/update: the ownership query joins the
menu item to its restaurant (404 when either is absent), forbids non-owner
non-admin callers, then updates the menu_items row with COALESCE fields and
returns it. -/
def updateMenuItem (db : DB) (isAdmin : Bool) (userId menuItemId : Nat)
    (name_v description_v : Option String) (price_v : Option Int)
    (is_available_v : Option Bool) : MenuUpdateResponse × DB :=
  match db.menu_items.find? (fun mi => mi.id == menuItemId) with
  | none => (.notFound "Menu item not found", db)
  | some mi =>
    match db.restaurants.find? (fun r => r.id == mi.restaurant_id) with
    | none => (.notFound "Menu item not found", db)
    | some r =>
      if r.owner_id != userId && !isAdmin then (.forbidden "Forbidden", db)
      else
        (.ok (coalesceMenuItem mi name_v description_v price_v is_available_v),
          { db with menu_items := db.menu_items.map (fun m =>
              if m.id == menuItemId then
                coalesceMenuItem m name_v description_v price_v is_available_v
              else m) })

/-- No table references the order id the next INSERT will allocate (the
SERIAL counter is fresh) — true of every state Postgres produces. -/
def FreshOrderId (db : DB) : Prop :=
  (∀ o ∈ db.orders, o.id ≠ db.nextOrderId) ∧
  (∀ r ∈ db.order_items, r.order_id ≠ db.nextOrderId) ∧
  (∀ ca ∈ db.courier_assignments, ca.order_id ≠ db.nextOrderId) ∧
  (∀ p ∈ db.payments, p.order_id ≠ db.nextOrderId)

instance (db : DB) : Decidable (FreshOrderId db) := by
  unfold FreshOrderId; infer_instance

theorem processItems_ok_spec (db : DB) (rid oid : Nat) :
    ∀ (its : List OrderItemReq) (n0 : Nat) (t0 : Int) (rows : List OrderItemRow)
      (n1 : Nat) (t1 : Int),
      processItems db rid oid its n0 t0 = .ok (rows, n1, t1) →
      t1 = t0 + sumLineItems rows ∧ ∀ r ∈ rows, r.order_id = oid
  | [], n0, t0, rows, n1, t1, h => by
    simp only [processItems, Except.ok.injEq, Prod.mk.injEq] at h
    obtain ⟨h1, _, h3⟩ := h
    subst h1; subst h3
    simp [sumLineItems]
  | it :: rest, n0, t0, rows, n1, t1, h => by
    simp only [processItems] at h
    split at h
    · exact absurd h (by simp)
    · split at h
      · exact absurd h (by simp)
      · rename_i mi _
        split at h
        · exact absurd h (by simp)
        · rename_i rows' n' t' heq
          simp only [Except.ok.injEq, Prod.mk.injEq] at h
          obtain ⟨h1, _, h3⟩ := h
          subst h1; subst h3
          obtain ⟨ih1, ih2⟩ := processItems_ok_spec db rid oid rest (n0 + 1)
            (t0 + mi.price * it.quantity) rows' n' t' heq
          constructor
          · rw [ih1]; simp [sumLineItems]; ring
          · intro r hr
            rcases List.mem_cons.mp hr with h | h
            · subst h; rfl
            · exact ih2 r h

theorem minId_eq_none {l : List Nat} (h : minId l = none) : l = [] := by
  cases l with
  | nil => rfl
  | cons a as => simp only [minId] at h; split at h <;> simp at h

theorem minId_mem {l : List Nat} {m : Nat} (h : minId l = some m) : m ∈ l := by
  induction l generalizing m with
  | nil => simp [minId] at h
  | cons x xs ih =>
    simp only [minId] at h
    cases hm : minId xs with
    | none => rw [hm] at h; injection h with h; subst h; exact List.mem_cons_self x xs
    | some k =>
      rw [hm] at h; injection h with h; subst h
      rcases Nat.le_total x k with hle | hle
      · rw [Nat.min_eq_left hle]; exact List.mem_cons_self x xs
      · rw [Nat.min_eq_right hle]; exact List.mem_cons_of_mem x (ih hm)

theorem minId_le {l : List Nat} {m : Nat} (h : minId l = some m) : ∀ x ∈ l, m ≤ x := by
  induction l generalizing m with
  | nil => simp [minId] at h
  | cons x xs ih =>
    simp only [minId] at h
    cases hm : minId xs with
    | none =>
      rw [hm] at h; injection h with h; subst h
      have hnil := minId_eq_none hm
      subst hnil
      intro y hy
      rcases List.mem_cons.mp hy with h | h
      · omega
      · simp at h
    | some k =>
      rw [hm] at h; injection h with h; subst h
      intro y hy
      rcases List.mem_cons.mp hy with h | h
      · omega
      · have := ih hm y h; omega

theorem selectCourier_spec (db : DB) (cid : Nat) (h : selectCourier db = some cid) :
    (∃ u ∈ db.users, u.id = cid ∧ courierIsAvailable db u = true) ∧
      ∀ u ∈ db.users, courierIsAvailable db u = true → cid ≤ u.id := by
  unfold selectCourier at h
  constructor
  · have hmem := minId_mem h
    simp only [List.mem_map, List.mem_filter] at hmem
    obtain ⟨u, ⟨hu, hav⟩, hid⟩ := hmem
    exact ⟨u, hu, hid, hav⟩
  · intro u hu hav
    refine minId_le h u.id ?_
    simp only [List.mem_map, List.mem_filter]
    exact ⟨u, ⟨hu, hav⟩, rfl⟩

theorem placeOrder_created_inv (db : DB) (cust : Nat) (req : OrderRequest) (now : Nat)
    (oid : Nat) (total : Int) (cid : Nat) (st ps : String) (db' : DB)
    (h : placeOrder db cust req now = (.created oid total cid st ps, db')) :
    oid = db.nextOrderId ∧ st = "DELIVERED" ∧ ps = "COMPLETED" ∧
      selectCourier db = some cid ∧
      ∃ rows n1, processItems db (req.restaurant_id.getD 0) db.nextOrderId
          (req.items.getD []) db.nextOrderItemId 0 = .ok (rows, n1, total) ∧
        db' = commitOrder db cust (req.restaurant_id.getD 0) (req.address_id.getD 0)
            req.payment_method now rows n1 total cid := by
  unfold placeOrder at h
  split at h
  · simp at h
  · split at h
    · simp at h
    · unfold placeOrderTx at h
      split at h
      · simp at h
      · split at h
        · simp at h
        · rename_i rows n1 t heq
          split at h
          · simp at h
          · rename_i cid' hsel
            simp only [Prod.mk.injEq, OrderResponse.created.injEq] at h
            obtain ⟨⟨hoid, htot, hcid, hst, hps⟩, hdb⟩ := h
            subst hoid; subst htot; subst hcid; subst hst; subst hps
            exact ⟨rfl, rfl, rfl, hsel, rows, n1, heq, hdb.symm⟩

/-! Concrete states used to instantiate the theorems, following the spec's
scenario: customer 1 with address 7 orders 2× item 100 (price 10.00) and
1× item 101 (price 5.00) from restaurant 3, with courier 9 available. -/

/-- Scenario database (amounts in minor units: 10.00 → 1000). -/
def demoDB : DB :=
  { users := [{ id := 1, roles := ["CUSTOMER"] }, { id := 9, roles := ["COURIER"] }],
    user_addresses := [{ id := 7, user_id := 1 }],
    restaurants := [{ id := 3, owner_id := 2 }],
    menu_items := [
      { id := 100, restaurant_id := 3, name := "A", description := "",
        price := 1000, is_available := true },
      { id := 101, restaurant_id := 3, name := "B", description := "",
        price := 500, is_available := true }],
    orders := [], order_items := [], courier_assignments := [], payments := [],
    nextOrderId := 1, nextOrderItemId := 1, nextAssignmentId := 1, nextPaymentId := 1 }

/-- The scenario request body. -/
def demoReq : OrderRequest :=
  { restaurant_id := some 3, address_id := some 7,
    items := some [{ menu_item_id := 100, quantity := 2 },
                   { menu_item_id := 101, quantity := 1 }],
    payment_method := "CREDIT_CARD" }

/-- Same state with no courier registered. -/
def demoDBnc : DB := { demoDB with users := [{ id := 1, roles := ["CUSTOMER"] }] }

/-- C1: for every successful order placement, the response's totalAmount
equals the sum of (snapshotted unit_price × quantity) over the order's
stored line items, and the stored order row carries the same total. -/
theorem C1_total_is_snapshot_sum (db : DB) (cust : Nat) (req : OrderRequest)
    (now : Nat) (oid : Nat) (total : Int) (cid : Nat) (st ps : String) (db' : DB)
    (hfresh : FreshOrderId db)
    (h : placeOrder db cust req now = (.created oid total cid st ps, db')) :
    total = sumLineItems (db'.order_items.filter (fun r => r.order_id == oid)) ∧
      ∃ o, db'.orders.find? (fun r => r.id == oid) = some o ∧
        o.total_amount = some total := by
  obtain ⟨hoid, hst, hps, hsel, rows, n1, heq, hdb⟩ :=
    placeOrder_created_inv db cust req now oid total cid st ps db' h
  subst hoid; subst hst; subst hps; subst hdb
  obtain ⟨ht, hrows⟩ := processItems_ok_spec db (req.restaurant_id.getD 0)
    db.nextOrderId (req.items.getD []) db.nextOrderItemId 0 rows n1 total heq
  constructor
  · have h1 : db.order_items.filter (fun r => r.order_id == db.nextOrderId) = [] := by
      rw [List.filter_eq_nil_iff]
      intro r hr
      simpa using hfresh.2.1 r hr
    have h2 : rows.filter (fun r => r.order_id == db.nextOrderId) = rows := by
      rw [List.filter_eq_self]
      intro r hr
      simpa using hrows r hr
    simp only [commitOrder, List.filter_append, h1, h2, List.nil_append]
    simpa using ht
  · have hnone : db.orders.find? (fun r => r.id == db.nextOrderId) = none :=
      List.find?_eq_none.mpr (fun o ho => by simpa using hfresh.1 o ho)
    refine ⟨{ id := db.nextOrderId, customer_id := cust,
              restaurant_id := req.restaurant_id.getD 0,
              address_id := req.address_id.getD 0, status := "DELIVERED",
              total_amount := some total, created_at := now, updated_at := now },
            ?_, rfl⟩
    simp only [commitOrder, List.find?_append, hnone, Option.none_or]
    simp [List.find?]

/-- C1 witness: the spec scenario evaluated concretely. -/
theorem C1_total_is_snapshot_sum_witness :
    2500 = sumLineItems ((placeOrder demoDB 1 demoReq 5).2.order_items.filter
      (fun r => r.order_id == 1)) ∧
    ∃ o, (placeOrder demoDB 1 demoReq 5).2.orders.find? (fun r => r.id == 1) = some o ∧
      o.total_amount = some 2500 :=
  C1_total_is_snapshot_sum demoDB 1 demoReq 5 1 2500 9 "DELIVERED" "COMPLETED"
    (placeOrder demoDB 1 demoReq 5).2 (by decide) (by decide)

/-- C2: every failure inside the create-order transaction is rolled back
before the error response is produced: the database is exactly the
pre-request state, so no partial rows of any of the four tables survive. -/
theorem C2_rollback_is_complete (db : DB) (cust : Nat) (req : OrderRequest)
    (now : Nat) (e : String) (db' : DB)
    (h : placeOrder db cust req now = (.rolledBack e, db')) :
    db' = db ∧ db'.orders = db.orders ∧ db'.order_items = db.order_items ∧
      db'.courier_assignments = db.courier_assignments ∧ db'.payments = db.payments := by
  suffices hdb : db' = db by subst hdb; exact ⟨rfl, rfl, rfl, rfl, rfl⟩
  unfold placeOrder at h
  split at h
  · simp at h
  · split at h
    · simp at h
    · unfold placeOrderTx at h
      split at h
      · simp only [Prod.mk.injEq] at h; exact h.2.symm
      · split at h
        · simp only [Prod.mk.injEq] at h; exact h.2.symm
        · split at h
          · simp only [Prod.mk.injEq] at h; exact h.2.symm
          · simp at h

/-- C2 witness: the no-courier failure leaves the state untouched. -/
theorem C2_rollback_is_complete_witness :
    (placeOrder demoDBnc 1 demoReq 5).2 = demoDBnc ∧
    (placeOrder demoDBnc 1 demoReq 5).2.orders = demoDBnc.orders ∧
    (placeOrder demoDBnc 1 demoReq 5).2.order_items = demoDBnc.order_items ∧
    (placeOrder demoDBnc 1 demoReq 5).2.courier_assignments = demoDBnc.courier_assignments ∧
    (placeOrder demoDBnc 1 demoReq 5).2.payments = demoDBnc.payments :=
  C2_rollback_is_complete demoDBnc 1 demoReq 5 "No courier available"
    (placeOrder demoDBnc 1 demoReq 5).2 (by decide)

/-- C3: a successful placement assigns the available courier (COURIER role,
no ASSIGNED/PICKED_UP assignment) with the lowest user id; when no courier
is available and every earlier step of the transaction succeeds, the whole
request fails with "No courier available" and the state rolls back. -/
theorem C3_courier_selection (db : DB) (cust : Nat) (req : OrderRequest) (now : Nat) :
    (∀ oid total cid st ps db',
      placeOrder db cust req now = (.created oid total cid st ps, db') →
        (∃ u ∈ db.users, u.id = cid ∧ courierIsAvailable db u = true) ∧
        (∀ u ∈ db.users, courierIsAvailable db u = true → cid ≤ u.id)) ∧
    (selectCourier db = none →
      missingOrderDetails req = false →
      isPaymentMethod req.payment_method = true →
      addressOk db cust (req.address_id.getD 0) = true →
      ∀ rows n1 total,
        processItems db (req.restaurant_id.getD 0) db.nextOrderId
          (req.items.getD []) db.nextOrderItemId 0 = .ok (rows, n1, total) →
        placeOrder db cust req now = (.rolledBack "No courier available", db)) := by
  constructor
  · intro oid total cid st ps db' h
    obtain ⟨_, _, _, hsel, _⟩ :=
      placeOrder_created_inv db cust req now oid total cid st ps db' h
    exact selectCourier_spec db cid hsel
  · intro hnone hmiss hpm haddr rows n1 total heq
    simp [placeOrder, placeOrderTx, hmiss, hpm, haddr, heq, hnone]

/-- C3 witness: in the scenario state courier 9 is selected and is the
minimal available courier; with the courier removed the same request fails
with "No courier available" and an unchanged state. -/
theorem C3_courier_selection_witness :
    ((∃ u ∈ demoDB.users, u.id = 9 ∧ courierIsAvailable demoDB u = true) ∧
      (∀ u ∈ demoDB.users, courierIsAvailable demoDB u = true → 9 ≤ u.id)) ∧
    placeOrder demoDBnc 1 demoReq 5 = (.rolledBack "No courier available", demoDBnc) := by
  constructor
  · exact (C3_courier_selection demoDB 1 demoReq 5).1 1 2500 9 "DELIVERED" "COMPLETED"
      (placeOrder demoDB 1 demoReq 5).2 (by decide)
  · exact (C3_courier_selection demoDBnc 1 demoReq 5).2 (by decide) (by decide)
      (by decide) (by decide)
      [{ id := 1, order_id := 1, menu_item_id := 100, quantity := 2, unit_price := 1000 },
       { id := 2, order_id := 1, menu_item_id := 101, quantity := 1, unit_price := 500 }]
      3 2500 rfl

/-- C4: a successful placement commits the order in status DELIVERED with
the computed total, a DELIVERED courier assignment stamped with the
delivery time, and a COMPLETED payment carrying the total and the
requested method, and answers 201 with status DELIVERED and payment_status
COMPLETED. -/
theorem C4_success_state (db : DB) (cust : Nat) (req : OrderRequest)
    (now : Nat) (oid : Nat) (total : Int) (cid : Nat) (st ps : String) (db' : DB)
    (hfresh : FreshOrderId db)
    (h : placeOrder db cust req now = (.created oid total cid st ps, db')) :
    st = "DELIVERED" ∧ ps = "COMPLETED" ∧
    (OrderResponse.created oid total cid st ps).statusCode = 201 ∧
    (∃ o, db'.orders.find? (fun r => r.id == oid) = some o ∧
      o.status = "DELIVERED" ∧ o.total_amount = some total) ∧
    (∃ a, db'.courier_assignments.find? (fun r => r.order_id == oid) = some a ∧
      a.status = "DELIVERED" ∧ a.delivered_at = some now ∧ a.courier_id = cid) ∧
    (∃ p, db'.payments.find? (fun r => r.order_id == oid) = some p ∧
      p.amount = total ∧ p.payment_method = req.payment_method ∧
      p.status = "COMPLETED") := by
  obtain ⟨hoid, hst, hps, hsel, rows, n1, heq, hdb⟩ :=
    placeOrder_created_inv db cust req now oid total cid st ps db' h
  subst hoid; subst hst; subst hps; subst hdb
  refine ⟨rfl, rfl, rfl, ?_, ?_, ?_⟩
  · have hnone : db.orders.find? (fun r => r.id == db.nextOrderId) = none :=
      List.find?_eq_none.mpr (fun o ho => by simpa using hfresh.1 o ho)
    refine ⟨{ id := db.nextOrderId, customer_id := cust,
              restaurant_id := req.restaurant_id.getD 0,
              address_id := req.address_id.getD 0, status := "DELIVERED",
              total_amount := some total, created_at := now, updated_at := now },
            ?_, rfl, rfl⟩
    simp only [commitOrder, List.find?_append, hnone, Option.none_or]
    simp [List.find?]
  · have hnone : db.courier_assignments.find? (fun r => r.order_id == db.nextOrderId) = none :=
      List.find?_eq_none.mpr (fun ca hca => by simpa using hfresh.2.2.1 ca hca)
    refine ⟨{ id := db.nextAssignmentId, order_id := db.nextOrderId, courier_id := cid,
              status := "DELIVERED", assigned_at := now, picked_at := none,
              delivered_at := some now }, ?_, rfl, rfl, rfl⟩
    simp only [commitOrder, List.find?_append, hnone, Option.none_or]
    simp [List.find?]
  · have hany : db.payments.any (fun p => p.order_id == db.nextOrderId) = false := by
      rw [List.any_eq_false]
      intro p hp
      simpa using hfresh.2.2.2 p hp
    have hnone : db.payments.find? (fun r => r.order_id == db.nextOrderId) = none :=
      List.find?_eq_none.mpr (fun p hp => by simpa using hfresh.2.2.2 p hp)
    refine ⟨{ id := db.nextPaymentId, order_id := db.nextOrderId, amount := total,
              payment_method := req.payment_method, status := "COMPLETED" },
            ?_, rfl, rfl, rfl⟩
    simp only [commitOrder, upsertPayment, hany, Bool.false_eq_true, if_false,
      List.find?_append, hnone, Option.none_or]
    simp [List.find?]

/-- C4 witness: the spec scenario evaluated concretely. -/
theorem C4_success_state_witness :
    "DELIVERED" = "DELIVERED" ∧ "COMPLETED" = "COMPLETED" ∧
    (OrderResponse.created 1 2500 9 "DELIVERED" "COMPLETED").statusCode = 201 ∧
    (∃ o, (placeOrder demoDB 1 demoReq 5).2.orders.find? (fun r => r.id == 1) = some o ∧
      o.status = "DELIVERED" ∧ o.total_amount = some 2500) ∧
    (∃ a, (placeOrder demoDB 1 demoReq 5).2.courier_assignments.find?
        (fun r => r.order_id == 1) = some a ∧
      a.status = "DELIVERED" ∧ a.delivered_at = some 5 ∧ a.courier_id = 9) ∧
    (∃ p, (placeOrder demoDB 1 demoReq 5).2.payments.find?
        (fun r => r.order_id == 1) = some p ∧
      p.amount = 2500 ∧ p.payment_method = demoReq.payment_method ∧
      p.status = "COMPLETED") :=
  C4_success_state demoDB 1 demoReq 5 1 2500 9 "DELIVERED" "COMPLETED"
    (placeOrder demoDB 1 demoReq 5).2 (by decide) (by decide)

/-- A state whose single assignment (id 1, order 4, courier 9) is DELIVERED. -/
def deliveredCaDB : DB :=
  { demoDB with
    orders := [{ id := 4, customer_id := 1, restaurant_id := 3, address_id := 7,
                 status := "DELIVERED", total_amount := some 2500,
                 created_at := 0, updated_at := 0 }],
    courier_assignments := [{ id := 1, order_id := 4, courier_id := 9,
                              status := "DELIVERED", assigned_at := 0,
                              picked_at := some 2, delivered_at := some 3 }] }

/-- A state whose single assignment (id 1, order 4, courier 9) is PICKED_UP,
with the parent order also PICKED_UP. -/
def pickedCaDB : DB :=
  { demoDB with
    orders := [{ id := 4, customer_id := 1, restaurant_id := 3, address_id := 7,
                 status := "PICKED_UP", total_amount := some 2500,
                 created_at := 0, updated_at := 0 }],
    courier_assignments := [{ id := 1, order_id := 4, courier_id := 9,
                              status := "PICKED_UP", assigned_at := 0,
                              picked_at := some 2, delivered_at := none }] }

/-- C5 counterexample: the update-status route accepts ASSIGNED on an
assignment that is already DELIVERED — the status moves backwards, so the
state machine is not monotonic. -/
theorem C5_counterexample_backwards_move :
    (deliveredCaDB.courier_assignments.map (fun ca => ca.status) = ["DELIVERED"]) ∧
    ((updateAssignmentStatus deliveredCaDB false 9 1 "ASSIGNED" 10).2.courier_assignments.map
      (fun ca => ca.status) = ["ASSIGNED"]) ∧
    (updateAssignmentStatus deliveredCaDB false 9 1 "ASSIGNED" 10).1 =
      .ok { id := 1, order_id := 4, courier_id := 9, status := "ASSIGNED",
            assigned_at := 0, picked_at := some 2, delivered_at := some 3 } := by
  decide

/-- C5 amended: the code enforces no transition order at all — whenever the
requested status is one of ASSIGNED/PICKED_UP/DELIVERED and the assignment
matches, the update succeeds and stores exactly the requested status,
regardless of the current status (so backwards moves are allowed). -/
theorem C5_no_transition_guard (db : DB) (isAdmin : Bool) (userId aid : Nat)
    (s : String) (now : Nat) (ca : AssignmentRow)
    (hs : isCourierAssignmentStatus s = true)
    (hfind : db.courier_assignments.find? (assignmentMatches isAdmin userId aid) = some ca) :
    (updateAssignmentStatus db isAdmin userId aid s now).1 =
      .ok (applyAssignmentUpdate ca s now) ∧
    (applyAssignmentUpdate ca s now).status = s := by
  constructor
  · simp [updateAssignmentStatus, hs, hfind]
  · unfold applyAssignmentUpdate
    split
    · rfl
    · split
      · rfl
      · rfl

/-- C5 amended witness: the DELIVERED assignment is reset to PICKED_UP. -/
theorem C5_no_transition_guard_witness :
    (updateAssignmentStatus deliveredCaDB false 9 1 "PICKED_UP" 10).1 =
      .ok (applyAssignmentUpdate
        { id := 1, order_id := 4, courier_id := 9,
          status := "DELIVERED", assigned_at := 0, picked_at := some 2,
          delivered_at := some 3 } "PICKED_UP" 10) ∧
    (applyAssignmentUpdate
        { id := 1, order_id := 4, courier_id := 9,
          status := "DELIVERED", assigned_at := 0, picked_at := some 2,
          delivered_at := some 3 } "PICKED_UP" 10).status = "PICKED_UP" :=
  C5_no_transition_guard deliveredCaDB false 9 1 "PICKED_UP" 10 _ (by decide) (by decide)

/-- Every order carrying the mirrored id is DELIVERED after the mirror
statement runs with status DELIVERED. -/
theorem mirrorOrderStatus_delivered_mem (db : DB) (orderId : Nat) :
    ∀ o ∈ (mirrorOrderStatus db "DELIVERED" orderId).orders,
      o.id = orderId → o.status = "DELIVERED" := by
  intro o ho hid
  have hcond : ("DELIVERED" == "DELIVERED") = true := by decide
  simp only [mirrorOrderStatus, hcond, if_true] at ho
  rcases List.mem_map.mp ho with ⟨o0, ho0, rfl⟩
  by_cases h : (o0.id == orderId) = true
  · simp [h]
  · simp only [h, if_false] at hid ⊢
    exact absurd (by simpa using hid) (by simpa using h)

/-- C6 counterexample: the two UPDATE statements of the DELIVERED
transition are separate auto-committed pool queries (db.ts `query`), not
one transaction: after the first statement commits, the database is in a
visible state where the assignment is DELIVERED but the parent order is
still PICKED_UP — impossible under "one atomic dual write within the same
transaction". -/
theorem C6_counterexample_intermediate_state :
    ((updateAssignmentStep1 pickedCaDB false 9 1 "DELIVERED" 10).courier_assignments.map
      (fun ca => ca.status) = ["DELIVERED"]) ∧
    ((updateAssignmentStep1 pickedCaDB false 9 1 "DELIVERED" 10).orders.map
      (fun o => o.status) = ["PICKED_UP"]) ∧
    (updateAssignmentStatus pickedCaDB false 9 1 "DELIVERED" 10).2 =
      mirrorOrderStatus (updateAssignmentStep1 pickedCaDB false 9 1 "DELIVERED" 10)
        "DELIVERED" 4 := by
  decide

/-- C6 amended: PICKED_UP stamps picked_at and DELIVERED stamps
delivered_at; the DELIVERED transition then mirrors DELIVERED onto the
parent order — but through a second, separately auto-committed UPDATE
(the handler runs both through the pool helper with no BEGIN/COMMIT), so
the dual write is sequential, not one atomic transaction. -/
theorem C6_dual_write_not_atomic (db : DB) (isAdmin : Bool) (userId aid now : Nat)
    (ca : AssignmentRow)
    (hfind : db.courier_assignments.find? (assignmentMatches isAdmin userId aid) = some ca) :
    (updateAssignmentStatus db isAdmin userId aid "PICKED_UP" now).1 =
      .ok { ca with status := "PICKED_UP", picked_at := some now } ∧
    (updateAssignmentStatus db isAdmin userId aid "DELIVERED" now).1 =
      .ok { ca with status := "DELIVERED", delivered_at := some now } ∧
    (updateAssignmentStatus db isAdmin userId aid "DELIVERED" now).2 =
      mirrorOrderStatus (updateAssignmentStep1 db isAdmin userId aid "DELIVERED" now)
        "DELIVERED" ca.order_id ∧
    (∀ o ∈ (updateAssignmentStatus db isAdmin userId aid "DELIVERED" now).2.orders,
      o.id = ca.order_id → o.status = "DELIVERED") := by
  have hp : isCourierAssignmentStatus "PICKED_UP" = true := by decide
  have hd : isCourierAssignmentStatus "DELIVERED" = true := by decide
  refine ⟨?_, ?_, ?_, ?_⟩
  · simp [updateAssignmentStatus, hp, hfind, applyAssignmentUpdate]
  · simp [updateAssignmentStatus, hd, hfind, applyAssignmentUpdate]
  · simp [updateAssignmentStatus, hd, hfind, applyAssignmentUpdate]
  · have hdb2 : (updateAssignmentStatus db isAdmin userId aid "DELIVERED" now).2 =
        mirrorOrderStatus (updateAssignmentStep1 db isAdmin userId aid "DELIVERED" now)
          "DELIVERED" ca.order_id := by
      simp [updateAssignmentStatus, hd, hfind, applyAssignmentUpdate]
    rw [hdb2]
    exact mirrorOrderStatus_delivered_mem _ ca.order_id

/-- C6 amended witness: the PICKED_UP/DELIVERED transitions on the
concrete PICKED_UP assignment. -/
theorem C6_dual_write_not_atomic_witness :
    (updateAssignmentStatus pickedCaDB false 9 1 "PICKED_UP" 10).1 =
      .ok { id := 1, order_id := 4, courier_id := 9, status := "PICKED_UP",
            assigned_at := 0, picked_at := some 10, delivered_at := none } ∧
    (updateAssignmentStatus pickedCaDB false 9 1 "DELIVERED" 10).1 =
      .ok { id := 1, order_id := 4, courier_id := 9, status := "DELIVERED",
            assigned_at := 0, picked_at := some 2, delivered_at := some 10 } ∧
    (updateAssignmentStatus pickedCaDB false 9 1 "DELIVERED" 10).2 =
      mirrorOrderStatus (updateAssignmentStep1 pickedCaDB false 9 1 "DELIVERED" 10)
        "DELIVERED" 4 ∧
    (∀ o ∈ (updateAssignmentStatus pickedCaDB false 9 1 "DELIVERED" 10).2.orders,
      o.id = 4 → o.status = "DELIVERED") :=
  C6_dual_write_not_atomic pickedCaDB false 9 1 10
    { id := 1, order_id := 4, courier_id := 9, status := "PICKED_UP",
      assigned_at := 0, picked_at := some 2, delivered_at := none } (by decide)

/-- C7: after a successful order placement, the menu-item update route
touches only the menu_items table: the stored orders, line items (with
their snapshotted unit prices), payments and assignments are all exactly
as the placement left them, for every possible price change. -/
theorem C7_price_snapshot_frame (db : DB) (cust : Nat) (req : OrderRequest)
    (now : Nat) (oid : Nat) (total : Int) (cid : Nat) (st ps : String) (db1 : DB)
    (_h : placeOrder db cust req now = (.created oid total cid st ps, db1))
    (isAdmin : Bool) (userId menuItemId : Nat) (nm ds : Option String)
    (pr : Option Int) (av : Option Bool) :
    ((updateMenuItem db1 isAdmin userId menuItemId nm ds pr av).2.orders = db1.orders) ∧
    ((updateMenuItem db1 isAdmin userId menuItemId nm ds pr av).2.order_items =
      db1.order_items) ∧
    ((updateMenuItem db1 isAdmin userId menuItemId nm ds pr av).2.payments =
      db1.payments) ∧
    ((updateMenuItem db1 isAdmin userId menuItemId nm ds pr av).2.courier_assignments =
      db1.courier_assignments) := by
  clear _h
  unfold updateMenuItem
  split
  · exact ⟨rfl, rfl, rfl, rfl⟩
  · split
    · exact ⟨rfl, rfl, rfl, rfl⟩
    · split
      · exact ⟨rfl, rfl, rfl, rfl⟩
      · exact ⟨rfl, rfl, rfl, rfl⟩

/-- C7 witness: a price change of item 100 after the scenario placement. -/
theorem C7_price_snapshot_frame_witness :
    ((updateMenuItem (placeOrder demoDB 1 demoReq 5).2 false 2 100 none none
        (some 9999) none).2.orders = (placeOrder demoDB 1 demoReq 5).2.orders) ∧
    ((updateMenuItem (placeOrder demoDB 1 demoReq 5).2 false 2 100 none none
        (some 9999) none).2.order_items = (placeOrder demoDB 1 demoReq 5).2.order_items) ∧
    ((updateMenuItem (placeOrder demoDB 1 demoReq 5).2 false 2 100 none none
        (some 9999) none).2.payments = (placeOrder demoDB 1 demoReq 5).2.payments) ∧
    ((updateMenuItem (placeOrder demoDB 1 demoReq 5).2 false 2 100 none none
        (some 9999) none).2.courier_assignments =
      (placeOrder demoDB 1 demoReq 5).2.courier_assignments) :=
  C7_price_snapshot_frame demoDB 1 demoReq 5 1 2500 9 "DELIVERED" "COMPLETED"
    (placeOrder demoDB 1 demoReq 5).2 (by decide) false 2 100 none none (some 9999) none

/-- C8: a request with a missing restaurant id, address id or items list,
an empty items list, or a payment method outside CREDIT_CARD/CASH/WALLET
is answered with a 400 validation error and the unchanged state (the
`badRequest` response is produced before any transaction is opened). -/
theorem C8_validation_before_transaction (db : DB) (cust : Nat)
    (req : OrderRequest) (now : Nat)
    (h : req.restaurant_id = none ∨ req.address_id = none ∨ req.items = none ∨
      req.items = some [] ∨ isPaymentMethod req.payment_method = false) :
    ∃ msg, placeOrder db cust req now = (.badRequest msg, db) ∧
      (OrderResponse.badRequest msg).statusCode = 400 := by
  by_cases hm : missingOrderDetails req = true
  · exact ⟨"Missing order details", by simp [placeOrder, hm], rfl⟩
  · have hm' : missingOrderDetails req = false := by simpa using hm
    have hpm : isPaymentMethod req.payment_method = false := by
      rcases h with h | h | h | h | h
      · exact absurd hm' (by simp [missingOrderDetails, h, truthy])
      · exact absurd hm' (by simp [missingOrderDetails, h, truthy])
      · exact absurd hm' (by simp [missingOrderDetails, h])
      · exact absurd hm' (by simp [missingOrderDetails, h])
      · exact h
    exact ⟨"Invalid payment_method", by simp [placeOrder, hm', hpm], rfl⟩

/-- C8 witness: a request without an address id. -/
theorem C8_validation_before_transaction_witness :
    ∃ msg, placeOrder demoDB 1 { demoReq with address_id := none } 5 =
        (.badRequest msg, demoDB) ∧
      (OrderResponse.badRequest msg).statusCode = 400 :=
  C8_validation_before_transaction demoDB 1 { demoReq with address_id := none } 5
    (Or.inr (Or.inl rfl))

/-- C9: a run in which the supplied address id does not exist and a run in
which it exists but belongs to a different user produce the same
client-facing response — the same "invalid address" message and the same
status code — so the caller cannot distinguish the two states. -/
theorem C9_address_error_indistinguishable (db1 db2 : DB) (cust : Nat)
    (req : OrderRequest) (now a : Nat)
    (hmiss : missingOrderDetails req = false)
    (hpm : isPaymentMethod req.payment_method = true)
    (haddr : req.address_id = some a)
    (h1 : ∀ r ∈ db1.user_addresses, r.id ≠ a)
    (h2 : ∀ r ∈ db2.user_addresses, r.id = a → r.user_id ≠ cust)
    (_h2ex : ∃ r ∈ db2.user_addresses, r.id = a ∧ r.user_id ≠ cust) :
    (placeOrder db1 cust req now).1 = (placeOrder db2 cust req now).1 ∧
    (placeOrder db1 cust req now).1 =
      .rolledBack "Invalid address_id (not found or not yours)" ∧
    ((placeOrder db1 cust req now).1).statusCode =
      ((placeOrder db2 cust req now).1).statusCode := by
  have hf1 : db1.user_addresses.find? (fun r => r.id == a && r.user_id == cust) = none :=
    List.find?_eq_none.mpr (fun r hr hc => by
      simp only [Bool.and_eq_true, beq_iff_eq] at hc
      exact h1 r hr hc.1)
  have hf2 : db2.user_addresses.find? (fun r => r.id == a && r.user_id == cust) = none :=
    List.find?_eq_none.mpr (fun r hr hc => by
      simp only [Bool.and_eq_true, beq_iff_eq] at hc
      exact h2 r hr hc.1 hc.2)
  have ha1 : addressOk db1 cust a = false := by simp [addressOk, hf1]
  have ha2 : addressOk db2 cust a = false := by simp [addressOk, hf2]
  have e1 : (placeOrder db1 cust req now).1 =
      .rolledBack "Invalid address_id (not found or not yours)" := by
    simp [placeOrder, placeOrderTx, hmiss, hpm, haddr, ha1]
  have e2 : (placeOrder db2 cust req now).1 =
      .rolledBack "Invalid address_id (not found or not yours)" := by
    simp [placeOrder, placeOrderTx, hmiss, hpm, haddr, ha2]
  refine ⟨e1.trans e2.symm, e1, ?_⟩
  rw [e1, e2]

/-- States for the C9 witness: the caller is user 1; address 7 is absent
in the first state and owned by user 2 in the second. -/
def noAddrDB : DB := { demoDB with user_addresses := [] }

/-- Address 7 exists but belongs to user 2. -/
def otherAddrDB : DB := { demoDB with user_addresses := [{ id := 7, user_id := 2 }] }

/-- C9 witness: both runs answer the identical invalid-address error. -/
theorem C9_address_error_indistinguishable_witness :
    (placeOrder noAddrDB 1 demoReq 5).1 = (placeOrder otherAddrDB 1 demoReq 5).1 ∧
    (placeOrder noAddrDB 1 demoReq 5).1 =
      .rolledBack "Invalid address_id (not found or not yours)" ∧
    ((placeOrder noAddrDB 1 demoReq 5).1).statusCode =
      ((placeOrder otherAddrDB 1 demoReq 5).1).statusCode :=
  C9_address_error_indistinguishable noAddrDB otherAddrDB 1 demoReq 5 7
    (by decide) (by decide) (by decide)
    (by intro r hr; simp [noAddrDB, demoDB] at hr)
    (by intro r hr; simp [otherAddrDB, demoDB] at hr; subst hr; simp)
    ⟨{ id := 7, user_id := 2 }, by simp [otherAddrDB, demoDB], rfl, by simp⟩

/-- C10: cancellation succeeds exactly when the order is found for the
requesting customer and is not DELIVERED, setting status CANCELLED and
refreshing updated_at (so an already CANCELLED order can be cancelled
again); a DELIVERED order is refused with an error and nothing changes;
an unknown or foreign order yields 404 with nothing changed. -/
theorem C10_cancel_characterization (db : DB) (cust orderId now : Nat) :
    (∀ o, db.orders.find? (fun r => r.id == orderId && r.customer_id == cust) = some o →
      o.status ≠ "DELIVERED" →
      cancelOrder db cust orderId now =
        (.ok { o with status := "CANCELLED", updated_at := now },
          { db with orders := db.orders.map (fun r =>
              if r.id == orderId && r.customer_id == cust then
                { r with status := "CANCELLED", updated_at := now }
              else r) })) ∧
    (∀ o, db.orders.find? (fun r => r.id == orderId && r.customer_id == cust) = some o →
      o.status = "DELIVERED" →
      cancelOrder db cust orderId now = (.badRequest "Cannot cancel delivered order", db)) ∧
    (db.orders.find? (fun r => r.id == orderId && r.customer_id == cust) = none →
      cancelOrder db cust orderId now = (.notFound "Order not found", db)) := by
  refine ⟨?_, ?_, ?_⟩
  · intro o hfind hst
    have hb : (o.status == "DELIVERED") = false := by
      simpa using hst
    simp [cancelOrder, hfind, hb]
  · intro o hfind hst
    simp [cancelOrder, hfind, hst]
  · intro hfind
    simp [cancelOrder, hfind]

/-- An already cancelled order of customer 1. -/
def cancelledOrderRow : OrderRow :=
  { id := 4, customer_id := 1, restaurant_id := 3, address_id := 7,
    status := "CANCELLED", total_amount := some 2500, created_at := 0, updated_at := 2 }

/-- State holding only the cancelled order. -/
def cancelledDB : DB := { demoDB with orders := [cancelledOrderRow] }

/-- C10 witness: re-cancelling a CANCELLED order succeeds and refreshes
updated_at. -/
theorem C10_cancel_characterization_witness :
    cancelOrder cancelledDB 1 4 8 =
      (.ok { cancelledOrderRow with status := "CANCELLED", updated_at := 8 },
        { cancelledDB with orders := cancelledDB.orders.map (fun r =>
            if r.id == 4 && r.customer_id == 1 then
              { r with status := "CANCELLED", updated_at := 8 }
            else r) }) :=
  (C10_cancel_characterization cancelledDB 1 4 8).1 cancelledOrderRow
    (by decide) (by decide)

end FoodDelivery
